import Mathlib

/-!
Shallow embedding of node's synchronous child-process runner
(`src/spawn_sync.cc`): the output-chunk chain, the per-stream stdio pipe,
the runner state with its two-priority error slots, the kill path, the
result assembly and the options decoder.  OS calls (libuv) are modelled by
passing their integer results as explicit parameters; callback-driven
mutation is modelled as explicit state-passing functions.
-/

namespace SpawnSync

/-- libuv error constants, with their Linux numeric values. -/
def UV_EINVAL : Int := -22

def UV_ENOMEM : Int := -12

def UV_ESRCH : Int := -3

def UV_ETIMEDOUT : Int := -110

def UV_EOF : Int := -4095

/-- POSIX signal numbers used by the runner. -/
def SIGTERM : Int := 15

def SIGKILL : Int := 9

/-- `SyncProcessOutputBuffer::kBufferSize`. -/
def kBufferSize : Nat := 65536

/-- Model of a JavaScript value as seen through the V8 API used by
`ParseOptions`: undefined, null, booleans, (integral) numbers, strings
(as byte lists), arrays, node `Buffer`s (byte lists) and plain objects
(association lists from property name to value). -/
inductive JsValue where
  | undefined : JsValue
  | null : JsValue
  | boolean : Bool → JsValue
  | number : Int → JsValue
  | str : List Nat → JsValue
  | arr : List JsValue → JsValue
  | buf : List Nat → JsValue
  | obj : List (String × JsValue) → JsValue

/-- Property lookup on an object's field list; missing keys read as
undefined, as in V8's `Object::Get`. -/
def getField : List (String × JsValue) → String → JsValue
  | [], _ => .undefined
  | (k, x) :: rest, key => if k = key then x else getField rest key

/-- `js_object->Get(key)`: undefined on non-objects is never exercised by
the decoder (it checks `IsObject` first). -/
def JsValue.get : JsValue → String → JsValue
  | .obj fs, key => getField fs key
  | _, _ => .undefined

/-- Bytes of a Lean string, used to build concrete JS string values. -/
def strBytes (s : String) : List Nat := s.toList.map Char.toNat

/-- `SyncProcessRunner::IsSet`: neither undefined nor null. -/
def isSet : JsValue → Bool
  | .undefined => false
  | .null => false
  | _ => true

/-- `v8::Value::IsObject`: objects, arrays and Buffers are all objects. -/
def isObject : JsValue → Bool
  | .obj _ => true
  | .arr _ => true
  | .buf _ => true
  | _ => false

def isArray : JsValue → Bool
  | .arr _ => true
  | _ => false

def isNumber : JsValue → Bool
  | .number _ => true
  | _ => false

/-- `v8::Value::IsInt32` on the modelled (integral) numbers. -/
def isInt32 : JsValue → Bool
  | .number n => decide (-(2 ^ 31) ≤ n ∧ n < 2 ^ 31)
  | _ => false

/-- `v8::Value::IsUint32` on the modelled (integral) numbers. -/
def isUint32 : JsValue → Bool
  | .number n => decide (0 ≤ n ∧ n < 2 ^ 32)
  | _ => false

/-- `v8::Value::BooleanValue`: JavaScript truthiness. -/
def booleanValue : JsValue → Bool
  | .undefined => false
  | .null => false
  | .boolean b => b
  | .number n => decide (n ≠ 0)
  | .str s => decide (s ≠ [])
  | .arr _ => true
  | .buf _ => true
  | .obj _ => true

/-- `v8::Value::Int32Value`: numbers are wrapped into the int32 range,
non-numbers read as 0. -/
def int32Value : JsValue → Int
  | .number n => (n + 2 ^ 31) % 2 ^ 32 - 2 ^ 31
  | _ => 0

/-- `v8::Value::IntegerValue` on the modelled values. -/
def integerValue : JsValue → Int
  | .number n => n
  | _ => 0

/-- `v8::Value::Uint32Value`: numbers wrapped into the uint32 range. -/
def uint32Value : JsValue → Int
  | .number n => n % 2 ^ 32
  | _ => 0

/-- `Buffer::HasInstance`. -/
def isBuffer : JsValue → Bool
  | .buf _ => true
  | _ => false

/-- `v8::Value::IsUndefined`. -/
def isUndefined : JsValue → Bool
  | .undefined => true
  | _ => false

/-- `js_type->StrictEquals(sym)` against a one-byte string symbol: true
exactly when the value is a string with those bytes. -/
def strictEqStr (v : JsValue) (s : String) : Bool :=
  match v with
  | .str bytes => decide (bytes = strBytes s)
  | _ => false

/-- `v8::Value::ToString` rendering, as bytes.  Only the string case is
relied upon by the claims; the other cases model V8's coercions coarsely
(array/Buffer renderings are collapsed to the empty string). -/
def toStringBytes : JsValue → List Nat
  | .str s => s
  | .undefined => strBytes "undefined"
  | .null => strBytes "null"
  | .boolean true => strBytes "true"
  | .boolean false => strBytes "false"
  | .number n => strBytes (toString n)
  | .arr _ => []
  | .buf _ => []
  | .obj _ => strBytes "[object Object]"

/-- `SyncProcessRunner::CopyJsString`: coerces to string and materializes
an owned copy; it always succeeds (returns 0). -/
def copyJsString (v : JsValue) : List Nat := toStringBytes v

/-- `SyncProcessRunner::CopyJsStringArray`: fails with `UV_EINVAL` on a
non-array, otherwise materializes every element coerced to a string. -/
def copyJsStringArray (v : JsValue) : Except Int (List (List Nat)) :=
  match v with
  | .arr xs => .ok (xs.map toStringBytes)
  | _ => .error UV_EINVAL

/-- `CheckRange<T>` for an unsigned 32-bit target (`uv_uid_t`,
`uv_gid_t`, `uint32_t` on Linux): the mask `~((T) ~0)` is zero for a
32-bit target, so the check reduces to `IsUint32`. -/
def checkRangeUint32 (v : JsValue) : Bool := isUint32 v

/-! ## The output-chunk chain (`SyncProcessOutputBuffer`) -/

/-- The chain of `SyncProcessOutputBuffer`s of one pipe.  Each entry
holds the committed bytes (`data_[0, used_)`) of one chunk; the list is
kept most-recent-chunk first (`last_output_buffer_` at the head), so
`first_output_buffer_ .. last_output_buffer_` is the reversed list. -/
structure OutputChain where
  rbufs : List (List Nat)
deriving DecidableEq, Repr

/-- `SyncProcessOutputBuffer::available()`. -/
def chunkAvailable (b : List Nat) : Nat := kBufferSize - b.length

/-- `SyncProcessStdioPipe::OnAlloc`: create the first chunk when there is
none, append a fresh chunk when the last one is full, else reuse the last
chunk's free region. -/
def allocChunk (c : OutputChain) : OutputChain :=
  match c.rbufs with
  | [] => ⟨[[]]⟩
  | b :: rest => if chunkAvailable b = 0 then ⟨[] :: b :: rest⟩ else ⟨b :: rest⟩

/-- Length of the region handed out by `allocChunk`. -/
def allocLen (c : OutputChain) : Nat :=
  match (allocChunk c).rbufs with
  | [] => 0
  | b :: _ => chunkAvailable b

/-- `SyncProcessOutputBuffer::OnRead`: commit `nread` bytes into the
last chunk, right after the already-used region (the source asserts the
committed region is the one `OnAlloc` handed out). -/
def commitRead (c : OutputChain) (s : List Nat) : OutputChain :=
  match c.rbufs with
  | [] => ⟨[s]⟩
  | b :: rest => ⟨(b ++ s) :: rest⟩

/-- One successful read callback delivering the bytes `s`: libuv calls
the alloc callback, then the read callback commits into that region. -/
def readStep (c : OutputChain) (s : List Nat) : OutputChain :=
  commitRead (allocChunk c) s

/-- The chain after a sequence of successful reads, in arrival order. -/
def processReads (segs : List (List Nat)) : OutputChain :=
  segs.foldl readStep ⟨[]⟩

/-- `SyncProcessStdioPipe::OutputLength`: the sum of `used` over the
chain. -/
def outputLength (c : OutputChain) : Nat :=
  (c.rbufs.map List.length).sum

/-- `SyncProcessStdioPipe::CopyOutput`: the chunks' committed bytes
concatenated from `first_output_buffer_` to the last. -/
def copyOutput (c : OutputChain) : List Nat :=
  c.rbufs.reverse.flatten

/-- libuv guarantees each read result fits the allocated region; this
relates a chain to a sequence of deliverable read sizes. -/
def validReads : OutputChain → List (List Nat) → Prop
  | _, [] => True
  | c, s :: rest => s.length ≤ allocLen c ∧ validReads (readStep c s) rest

/-! ## The stdio pipe (`SyncProcessStdioPipe`) -/

inductive PipeLifecycle where
  | uninitialized : PipeLifecycle
  | initialized : PipeLifecycle
  | started : PipeLifecycle
  | closing : PipeLifecycle
  | closed : PipeLifecycle
deriving DecidableEq, Repr

/-- `SyncProcessStdioPipe`: stream direction flags, the caller-supplied
input bytes (`input_buffer_`; empty models the NULL/0 buffer), the
captured-output chain and the lifecycle state. -/
structure StdioPipe where
  readable : Bool
  writable : Bool
  input : List Nat
  chain : OutputChain
  lifecycle : PipeLifecycle
deriving DecidableEq, Repr

/-- Result of `SyncProcessStdioPipe::Start`: the updated pipe, which of
the three libuv submissions were made (`uv_write`, `uv_shutdown`,
`uv_read_start`) and the returned code. -/
structure StartOutcome where
  pipe : StdioPipe
  wroteInput : Bool
  shutdownSent : Bool
  readStarted : Bool
  result : Int

/-- Tail of `Start` for the `writable()` branch. -/
def startFinishWritable (p : StdioPipe) (wrote sd : Bool) (readR : Int) :
    StartOutcome :=
  if p.writable then
    if readR < 0 then ⟨p, wrote, sd, true, readR⟩ else ⟨p, wrote, sd, true, 0⟩
  else ⟨p, wrote, sd, false, 0⟩

/-- `SyncProcessStdioPipe::Start` (requires `lifecycle_ == kInitialized`).
The state is set to Started up front — if a submission fails no recovery
is possible.  `writeR`, `shutdownR`, `readR` are the results of the three
libuv calls, consumed only when the corresponding call is made. -/
def pipeStart (p0 : StdioPipe) (writeR shutdownR readR : Int) : StartOutcome :=
  let p := { p0 with lifecycle := .started }
  if p.readable then
    if 0 < p.input.length then
      if writeR < 0 then ⟨p, true, false, false, writeR⟩
      else if shutdownR < 0 then ⟨p, true, true, false, shutdownR⟩
      else startFinishWritable p true true readR
    else
      if shutdownR < 0 then ⟨p, false, true, false, shutdownR⟩
      else startFinishWritable p false true readR
  else startFinishWritable p false false readR

/-! ## The runner (`SyncProcessRunner`) -/

inductive RunnerLifecycle where
  | uninitialized : RunnerLifecycle
  | initialized : RunnerLifecycle
  | handlesClosed : RunnerLifecycle
deriving DecidableEq, Repr

/-- `SyncProcessRunner`'s fields.  The four `*Buffer` fields are the
owned buffers (`file_buffer_` … `cwd_buffer_`, NULL modelled as `none`);
the `opts*` fields are the corresponding members of
`uv_process_options_`.  `killCalls` records each `uv_process_kill`
submission (the signal sent); `spawnAttempted` records that control
reached `uv_spawn`. -/
structure RunnerState where
  maxBuffer : Nat
  timeout : Nat
  killSignal : Int
  stdioCount : Nat
  pipes : List (Option StdioPipe)
  containerFlags : List Nat
  fileBuffer : Option (List Nat)
  argsBuffer : Option (List (List Nat))
  envBuffer : Option (List (List Nat))
  cwdBuffer : Option (List Nat)
  optsFile : Option (List Nat)
  optsArgs : Option (List (List Nat))
  optsEnv : Option (List (List Nat))
  optsCwd : Option (List Nat)
  optsFlags : Nat
  optsUid : Int
  optsGid : Int
  spawnAttempted : Bool
  killed : Bool
  killCalls : List Int
  bufferedOutputSize : Nat
  exitStatus : Int
  termSignal : Int
  killTimerInitialized : Bool
  timerActive : Bool
  error : Int
  pipeError : Int
  lifecycle : RunnerLifecycle

/-- The `SyncProcessRunner` constructor's initial state. -/
def initialRunner : RunnerState where
  maxBuffer := 0
  timeout := 0
  killSignal := SIGTERM
  stdioCount := 0
  pipes := []
  containerFlags := []
  fileBuffer := none
  argsBuffer := none
  envBuffer := none
  cwdBuffer := none
  optsFile := none
  optsArgs := none
  optsEnv := none
  optsCwd := none
  optsFlags := 0
  optsUid := 0
  optsGid := 0
  spawnAttempted := false
  killed := false
  killCalls := []
  bufferedOutputSize := 0
  exitStatus := -1
  termSignal := -1
  killTimerInitialized := false
  timerActive := false
  error := 0
  pipeError := 0
  lifecycle := .uninitialized

/-- `SyncProcessRunner::SetError`: first write wins. -/
def setError (s : RunnerState) (e : Int) : RunnerState :=
  if s.error = 0 then { s with error := e } else s

/-- `SyncProcessRunner::SetPipeError`: first write wins. -/
def setPipeError (s : RunnerState) (e : Int) : RunnerState :=
  if s.pipeError = 0 then { s with pipeError := e } else s

/-- `SyncProcessRunner::GetError`: the primary error if set, else the
pipe error. -/
def getError (s : RunnerState) : Int :=
  if s.error ≠ 0 then s.error else s.pipeError

/-- `SyncProcessRunner::StopKillTimer` (`uv_timer_stop` when the timer
was initialized; the source also asserts
`(timeout_ > 0) == kill_timer_initialized_`). -/
def stopKillTimer (s : RunnerState) : RunnerState :=
  if s.killTimerInitialized then { s with timerActive := false } else s

/-- `SyncProcessRunner::Kill`.  `r1` is the result of the first
`uv_process_kill(&uv_process_, kill_signal_)`; `r2` is the result of the
retry (the source only asserts `r2 >= 0 || r2 == UV_ESRCH` on it).  Only
the first call does anything — `killed_` latches. -/
def kill (s : RunnerState) (r1 _r2 : Int) : RunnerState :=
  if s.killed then s
  else
    let s1 := { s with killed := true,
                       killCalls := s.killCalls ++ [s.killSignal] }
    let s2 :=
      if r1 < 0 ∧ r1 ≠ UV_ESRCH then
        let se := setError s1 r1
        { se with killCalls := se.killCalls ++ [se.killSignal] }
      else s1
    stopKillTimer s2

/-- `SyncProcessRunner::IncrementBufferSizeAndCheckOverflow`: add the
read length, then kill when a nonzero `max_buffer_` is exceeded.  `r1`,
`r2` are the kill-syscall results consumed only if `Kill` runs. -/
def incrementBufferSizeAndCheckOverflow (s : RunnerState) (len : Nat)
    (r1 r2 : Int) : RunnerState :=
  let s1 := { s with bufferedOutputSize := s.bufferedOutputSize + len }
  if 0 < s1.maxBuffer ∧ s1.maxBuffer < s1.bufferedOutputSize then
    kill s1 r1 r2
  else s1

/-- `SyncProcessRunner::OnExit`. -/
def onExit (s : RunnerState) (exitStatus : Int) (termSignal : Int) :
    RunnerState :=
  if exitStatus < 0 then setError s exitStatus
  else stopKillTimer { s with exitStatus := exitStatus,
                              termSignal := termSignal }

/-- `SyncProcessRunner::OnKillTimerTimeout`. -/
def onKillTimerTimeout (s : RunnerState) (r1 r2 : Int) : RunnerState :=
  kill (setError s UV_ETIMEDOUT) r1 r2

/-! ## Result assembly -/

/-- The JS result object: absent fields are `none` (the `error` key is
only set when nonzero; `status`, `signal`, `output` are set to JS null,
modelled as `none`, in their negative cases). -/
structure SpawnResult where
  error : Option Int
  status : Option Int
  signal : Option String
  output : Option (List (Option (List Nat)))

/-- The platform's `signo_string` table (external to this file's source;
only injectivity on the common signals matters to the claims). -/
def signoString (n : Int) : String :=
  if n = 1 then "SIGHUP"
  else if n = 2 then "SIGINT"
  else if n = 9 then "SIGKILL"
  else if n = 15 then "SIGTERM"
  else "SIG" ++ toString n

/-- `SyncProcessRunner::BuildOutputArray`: one entry per stdio slot; the
captured bytes for present writable pipes, JS null otherwise. -/
def buildOutputArray (s : RunnerState) : List (Option (List Nat)) :=
  s.pipes.map fun po =>
    match po with
    | some p => if p.writable then some (copyOutput p.chain) else none
    | none => none

/-- `SyncProcessRunner::BuildResultObject`. -/
def buildResultObject (s : RunnerState) : SpawnResult where
  error := if getError s ≠ 0 then some (getError s) else none
  status := if 0 ≤ s.exitStatus then some s.exitStatus else none
  signal := if 0 < s.termSignal then some (signoString s.termSignal) else none
  output := if 0 ≤ s.exitStatus then some (buildOutputArray s) else none

/-! ## The options decoder (`SyncProcessRunner::ParseOptions`)

The source tests several decode results with `if (r = f(...) < 0) return r;`
— operator precedence makes this `r = (f(...) < 0)`, so on failure `r`
is the boolean `1`, which is what gets returned (a positive value), and
on success `r` is `0` and the `if` is not taken.  The steps below embed
that behavior literally: a failing step early-returns the pair
`(state, 1)`. -/

/-- Outcome of parsing one stdio option (or the whole stdio array):
success with the updated runner, an early `return code`, or a failed
`assert` (the process aborts). -/
inductive StdioParse where
  | ok : RunnerState → StdioParse
  | err : RunnerState → Int → StdioParse
  | fatal : StdioParse

/-- `UV_IGNORE`. -/
def uvIgnoreFlag : Nat := 0

/-- `UV_CREATE_PIPE | (readable? UV_READABLE_PIPE) | (writable? UV_WRITABLE_PIPE)`
(`SyncProcessStdioPipe::uv_stdio_flags`). -/
def pipeStdioFlags (r w : Bool) : Nat :=
  1 + (if r then 16 else 0) + (if w then 32 else 0)

/-- `UV_INHERIT_FD`. -/
def uvInheritFdFlag : Nat := 2

/-- `SyncProcessRunner::AddStdioIgnore`: asserts the slot is in range and
still empty. -/
def addStdioIgnore (s : RunnerState) (fd : Nat) : StdioParse :=
  if fd < s.stdioCount ∧ s.pipes.get? fd = some none then
    .ok { s with containerFlags := s.containerFlags.set fd uvIgnoreFlag }
  else .fatal

/-- `SyncProcessRunner::AddStdioPipe`: asserts the slot is in range and
empty; the `SyncProcessStdioPipe` constructor asserts
`readable || writable`; `Initialize` binds the pipe handle to the loop
(`uv_pipe_init`, modelled as succeeding). -/
def addStdioPipe (s : RunnerState) (fd : Nat) (r w : Bool)
    (input : List Nat) : StdioParse :=
  if fd < s.stdioCount ∧ s.pipes.get? fd = some none then
    if r ∨ w then
      let p : StdioPipe :=
        { readable := r, writable := w, input := input,
          chain := ⟨[]⟩, lifecycle := .initialized }
      .ok { s with
              pipes := s.pipes.set fd (some p),
              containerFlags := s.containerFlags.set fd (pipeStdioFlags r w) }
    else .fatal
  else .fatal

/-- `SyncProcessRunner::AddStdioInheritFD`. -/
def addStdioInheritFD (s : RunnerState) (fd : Nat) (_inheritFd : Int) :
    StdioParse :=
  if fd < s.stdioCount ∧ s.pipes.get? fd = some none then
    .ok { s with containerFlags := s.containerFlags.set fd uvInheritFdFlag }
  else .fatal

/-- `SyncProcessRunner::ParseStdioOption`: dispatch on the `type` key.
For a readable pipe whose `input` is neither a `Buffer` nor undefined the
source hits `assert(input->IsUndefined())` — a fatal abort.  An unknown
`type` hits `assert(0 && "invalid child stdio type")`. -/
def parseStdioOption (s : RunnerState) (fd : Nat) (v : JsValue) :
    StdioParse :=
  let ty := v.get "type"
  if strictEqStr ty "ignore" then addStdioIgnore s fd
  else if strictEqStr ty "pipe" then
    let r := booleanValue (v.get "readable")
    let w := booleanValue (v.get "writable")
    if r then
      match v.get "input" with
      | .buf bytes => addStdioPipe s fd r w bytes
      | .undefined => addStdioPipe s fd r w []
      | _ => .fatal
    else addStdioPipe s fd r w []
  else if strictEqStr ty "inherit" then
    addStdioInheritFD s fd (int32Value (v.get "fd"))
  else .fatal

/-- The loop body of `ParseStdioOptions` over the stdio entries. -/
def parseStdioList (s : RunnerState) (fd : Nat) :
    List JsValue → StdioParse
  | [] => .ok s
  | e :: rest =>
    if isObject e then
      match parseStdioOption s fd e with
      | .ok s1 => parseStdioList s1 (fd + 1) rest
      | .err s1 c => .err s1 c
      | .fatal => .fatal
    else .err s UV_EINVAL

/-- `SyncProcessRunner::ParseStdioOptions`: requires an array, sizes the
pipe and container tables, parses each entry, then publishes the stdio
plan into `uv_process_options_`. -/
def parseStdioOptions (s : RunnerState) (v : JsValue) : StdioParse :=
  match v with
  | .arr xs =>
    parseStdioList
      { s with stdioCount := xs.length,
               pipes := List.replicate xs.length none,
               containerFlags := List.replicate xs.length 0 }
      0 xs
  | _ => .err s UV_EINVAL

/-- The `file` field: `CopyJsString` cannot fail, so the buggy guard
`if (r = CopyJsString(...) < 0)` is never taken; the owned buffer is
stored and `uv_process_options_.file` points at it. -/
def parseFileStep (s : RunnerState) (v : JsValue) : RunnerState :=
  let fb := copyJsString (v.get "file")
  { s with fileBuffer := some fb, optsFile := some fb }

/-- The `args` field.  On a non-array, `CopyJsStringArray` returns
`UV_EINVAL` and the buggy guard makes `ParseOptions` return `1`. -/
def parseArgsStep (s : RunnerState) (v : JsValue) :
    Except (RunnerState × Int) RunnerState :=
  match copyJsStringArray (v.get "args") with
  | .error _ => .error (s, 1)
  | .ok xs => .ok { s with argsBuffer := some xs, optsArgs := some xs }

/-- The `cwd` field.  The source copies the decoded string directly into
`uv_process_options_.cwd` (not into `cwd_buffer_`), then overwrites
`uv_process_options_.cwd` with the never-assigned `cwd_buffer_` (NULL). -/
def parseCwdStep (s : RunnerState) (v : JsValue) : RunnerState :=
  if isSet (v.get "cwd") then
    let s1 := { s with optsCwd := some (copyJsString (v.get "cwd")) }
    { s1 with optsCwd := s1.cwdBuffer }
  else s

/-- The `envPairs` field.  On success the source assigns the decoded
environment block to `uv_process_options_.args` (the typo noted in the
spec); `uv_process_options_.env` is never written. -/
def parseEnvStep (s : RunnerState) (v : JsValue) :
    Except (RunnerState × Int) RunnerState :=
  if isSet (v.get "envPairs") then
    match copyJsStringArray (v.get "envPairs") with
    | .error _ => .error (s, 1)
    | .ok xs => .ok { s with envBuffer := some xs, optsArgs := some xs }
  else .ok s

/-- `UV_PROCESS_SETUID`. -/
def flagSetuid : Nat := 1

/-- `UV_PROCESS_SETGID`. -/
def flagSetgid : Nat := 2

/-- `UV_PROCESS_WINDOWS_VERBATIM_ARGUMENTS`. -/
def flagVerbatim : Nat := 4

/-- `UV_PROCESS_DETACHED`. -/
def flagDetached : Nat := 8

/-- The `uid` field: range-checked (no precedence bug on this path). -/
def parseUidStep (s : RunnerState) (v : JsValue) :
    Except (RunnerState × Int) RunnerState :=
  if isSet (v.get "uid") then
    if checkRangeUint32 (v.get "uid") then
      .ok { s with optsUid := int32Value (v.get "uid"),
                   optsFlags := s.optsFlags ||| flagSetuid }
    else .error (s, UV_EINVAL)
  else .ok s

/-- The `gid` field. -/
def parseGidStep (s : RunnerState) (v : JsValue) :
    Except (RunnerState × Int) RunnerState :=
  if isSet (v.get "gid") then
    if checkRangeUint32 (v.get "gid") then
      .ok { s with optsGid := int32Value (v.get "gid"),
                   optsFlags := s.optsFlags ||| flagSetgid }
    else .error (s, UV_EINVAL)
  else .ok s

/-- The `detached` and `windowsVerbatimArguments` boolean flags. -/
def parseFlagsStep (s : RunnerState) (v : JsValue) : RunnerState :=
  let s1 := if booleanValue (v.get "detached") then
              { s with optsFlags := s.optsFlags ||| flagDetached }
            else s
  if booleanValue (v.get "windowsVerbatimArguments") then
    { s1 with optsFlags := s1.optsFlags ||| flagVerbatim }
  else s1

/-- The `timeout` field: must be a number, must be non-negative. -/
def parseTimeoutStep (s : RunnerState) (v : JsValue) :
    Except (RunnerState × Int) RunnerState :=
  if isSet (v.get "timeout") then
    if isNumber (v.get "timeout") then
      let t := integerValue (v.get "timeout")
      if t < 0 then .error (s, UV_EINVAL)
      else .ok { s with timeout := t.toNat }
    else .error (s, UV_EINVAL)
  else .ok s

/-- The `maxBuffer` field: uint32 range-checked. -/
def parseMaxBufferStep (s : RunnerState) (v : JsValue) :
    Except (RunnerState × Int) RunnerState :=
  if isSet (v.get "maxBuffer") then
    if checkRangeUint32 (v.get "maxBuffer") then
      .ok { s with maxBuffer := (uint32Value (v.get "maxBuffer")).toNat }
    else .error (s, UV_EINVAL)
  else .ok s

/-- The `killSignal` field: must be an int32; `kill_signal_` is written
before the zero check, so a zero signal leaves `kill_signal_ = 0` in the
state it early-returns with. -/
def parseKillSignalStep (s : RunnerState) (v : JsValue) :
    Except (RunnerState × Int) RunnerState :=
  if isSet (v.get "killSignal") then
    if isInt32 (v.get "killSignal") then
      let s1 := { s with killSignal := int32Value (v.get "killSignal") }
      if s1.killSignal = 0 then .error (s1, UV_EINVAL) else .ok s1
    else .error (s, UV_EINVAL)
  else .ok s

/-- `SyncProcessRunner::ParseOptions`.  Returns `none` when an assertion
aborts the process, otherwise the final state and the returned code.  The
paths through the buggy `if (r = f(...) < 0) return r;` guards return
the positive value `1` on failure. -/
def parseOptions (s0 : RunnerState) (v : JsValue) :
    Option (RunnerState × Int) :=
  if isObject v then
    let s := parseFileStep s0 v
    match parseArgsStep s v with
    | .error p => some p
    | .ok s =>
      let s := parseCwdStep s v
      match parseEnvStep s v with
      | .error p => some p
      | .ok s =>
        match parseUidStep s v with
        | .error p => some p
        | .ok s =>
          match parseGidStep s v with
          | .error p => some p
          | .ok s =>
            let s := parseFlagsStep s v
            match parseTimeoutStep s v with
            | .error p => some p
            | .ok s =>
              match parseMaxBufferStep s v with
              | .error p => some p
              | .ok s =>
                match parseKillSignalStep s v with
                | .error p => some p
                | .ok s =>
                  match parseStdioOptions s (v.get "stdio") with
                  | .ok s1 => some (s1, 0)
                  | .err s1 _ => some (s1, 1)
                  | .fatal => none
  else some (s0, UV_EINVAL)

/-- `SyncProcessRunner::TryInitializeAndRunLoop`, up to and including the
spawn attempt.  `uv_loop_new`, `uv_timer_init` and `uv_timer_start` are
modelled as succeeding; the timer is started unreferenced.  The decode
result is checked with `if (r < 0)` — a genuinely negative code becomes
the primary error and nothing further runs, while the buggy positive `1`
sails through and control reaches `uv_spawn`.  The subsequent pipe
starts and the loop drain are event-driven and modelled by the callback
functions above. -/
def tryInitializeAndRunLoop (s0 : RunnerState) (v : JsValue) :
    Option RunnerState :=
  let s := { s0 with lifecycle := .initialized }
  match parseOptions s v with
  | none => none
  | some (s1, r) =>
    if r < 0 then some (setError s1 r)
    else
      let s2 := if 0 < s1.timeout then
                  { s1 with killTimerInitialized := true, timerActive := true }
                else s1
      some { s2 with spawnAttempted := true }

/-! ## Auxiliary definitions for the statements -/

/-- An error-recording event: a call to `SetError` or to `SetPipeError`. -/
inductive ErrOp where
  | primary : Int → ErrOp
  | pipe : Int → ErrOp

def applyErrOp (s : RunnerState) : ErrOp → RunnerState
  | .primary c => setError s c
  | .pipe c => setPipeError s c

/-- The runner state after an arbitrary sequence of error recordings. -/
def applyErrOps (s : RunnerState) (ops : List ErrOp) : RunnerState :=
  ops.foldl applyErrOp s

/-- The `kill_signal_` field of the state `ParseOptions` returns with
(`none` when an assertion aborted). -/
def parsedKillSignal (s : RunnerState) (v : JsValue) : Option Int :=
  match parseOptions s v with
  | some p => some p.1.killSignal
  | none => none

/-- A concrete options record whose `args` field is not an array, so its
decode fails with `UV_EINVAL` inside `CopyJsStringArray`. -/
def optsBadArgs : JsValue :=
  .obj [("file", .str (strBytes "/bin/echo")),
        ("args", .number 42),
        ("stdio", .arr [.obj [("type", .str (strBytes "ignore"))]])]

/-- A concrete options record with `envPairs` and `cwd` both set. -/
def optsEnvCwd : JsValue :=
  .obj [("file", .str (strBytes "/bin/echo")),
        ("args", .arr [.str (strBytes "echo")]),
        ("cwd", .str (strBytes "/tmp")),
        ("envPairs", .arr [.str (strBytes "A=B")]),
        ("stdio", .arr [])]

/-- A minimal well-formed options record without a `killSignal` field. -/
def optsPlain : JsValue :=
  .obj [("file", .str (strBytes "/bin/true")),
        ("args", .arr [.str (strBytes "true")]),
        ("stdio", .arr [])]

/-- A runner state sized for one stdio slot, as `ParseStdioOptions`
produces before parsing the entries. -/
def stdioStateOne : RunnerState :=
  { initialRunner with stdioCount := 1, pipes := [none],
                       containerFlags := [0] }

/-- A readable-pipe stdio entry whose `input` is a string — neither a
`Buffer` nor undefined. -/
def stdioEntryBadInput : JsValue :=
  .obj [("type", .str (strBytes "pipe")),
        ("readable", .boolean true),
        ("input", .str (strBytes "abc"))]

/-- A readable-pipe stdio entry with a proper `Buffer` input. -/
def stdioEntryBufInput : JsValue :=
  .obj [("type", .str (strBytes "pipe")),
        ("readable", .boolean true),
        ("writable", .boolean false),
        ("input", .buf [97, 98, 99])]

/-- A concrete runner state with an armed kill timer. -/
def runnerWithTimer : RunnerState :=
  { initialRunner with timeout := 50, killTimerInitialized := true,
                       timerActive := true }

/-- A concrete readable pipe, freshly initialized, with two input
bytes. -/
def pipeReadableEx : StdioPipe :=
  { readable := true, writable := false, input := [104, 105],
    chain := ⟨[]⟩, lifecycle := .initialized }

/-- A concrete runner state after a normal exit, with one writable pipe
in slot 1 that captured one byte. -/
def runnerForResult : RunnerState :=
  { initialRunner with
      exitStatus := 0, termSignal := 0, stdioCount := 2,
      pipes := [none,
                some { readable := false, writable := true, input := [],
                       chain := ⟨[[104]]⟩, lifecycle := .closed }],
      containerFlags := [0, 33] }

/-! ## Helper lemmas -/

theorem copyOutput_allocChunk (c : OutputChain) :
    copyOutput (allocChunk c) = copyOutput c := by
  unfold copyOutput allocChunk
  match c with
  | ⟨[]⟩ => rfl
  | ⟨b :: rest⟩ =>
    dsimp only
    split <;> simp

theorem copyOutput_commitRead (c : OutputChain) (s : List Nat) :
    copyOutput (commitRead c s) = copyOutput c ++ s := by
  unfold copyOutput commitRead
  match c with
  | ⟨[]⟩ => simp
  | ⟨b :: rest⟩ => simp

theorem copyOutput_readStep (c : OutputChain) (s : List Nat) :
    copyOutput (readStep c s) = copyOutput c ++ s := by
  unfold readStep
  rw [copyOutput_commitRead, copyOutput_allocChunk]

theorem copyOutput_foldl (segs : List (List Nat)) (c : OutputChain) :
    copyOutput (segs.foldl readStep c) = copyOutput c ++ segs.flatten := by
  induction segs generalizing c with
  | nil => simp
  | cons s rest ih =>
    simp only [List.foldl_cons, List.flatten_cons]
    rw [ih, copyOutput_readStep, List.append_assoc]

theorem outputLength_eq_length_copyOutput (c : OutputChain) :
    outputLength c = (copyOutput c).length := by
  unfold outputLength copyOutput
  rw [List.length_flatten, List.map_reverse, List.sum_reverse]

theorem setError_error (s : RunnerState) (e : Int) :
    (setError s e).error = if s.error = 0 then e else s.error := by
  unfold setError
  split <;> simp_all

theorem setError_stable (s : RunnerState) (e : Int) (h : s.error ≠ 0) :
    setError s e = s := by
  unfold setError
  simp [h]

theorem setPipeError_stable (s : RunnerState) (e : Int) (h : s.pipeError ≠ 0) :
    setPipeError s e = s := by
  unfold setPipeError
  simp [h]

theorem applyErrOp_error_stable (s : RunnerState) (op : ErrOp)
    (h : s.error ≠ 0) : (applyErrOp s op).error = s.error := by
  cases op with
  | primary c =>
    show (setError s c).error = s.error
    rw [setError_stable s c h]
  | pipe c =>
    show (setPipeError s c).error = s.error
    unfold setPipeError
    split <;> rfl

theorem applyErrOp_pipeError_stable (s : RunnerState) (op : ErrOp)
    (h : s.pipeError ≠ 0) : (applyErrOp s op).pipeError = s.pipeError := by
  cases op with
  | primary c =>
    show (setError s c).pipeError = s.pipeError
    unfold setError
    split <;> rfl
  | pipe c =>
    show (setPipeError s c).pipeError = s.pipeError
    rw [setPipeError_stable s c h]

theorem applyErrOps_error_stable (s : RunnerState) (ops : List ErrOp)
    (h : s.error ≠ 0) : (applyErrOps s ops).error = s.error := by
  induction ops generalizing s with
  | nil => rfl
  | cons op rest ih =>
    show (applyErrOps (applyErrOp s op) rest).error = s.error
    rw [ih (applyErrOp s op) (by rw [applyErrOp_error_stable s op h]; exact h),
        applyErrOp_error_stable s op h]

theorem applyErrOps_pipeError_stable (s : RunnerState) (ops : List ErrOp)
    (h : s.pipeError ≠ 0) : (applyErrOps s ops).pipeError = s.pipeError := by
  induction ops generalizing s with
  | nil => rfl
  | cons op rest ih =>
    show (applyErrOps (applyErrOp s op) rest).pipeError = s.pipeError
    rw [ih (applyErrOp s op)
          (by rw [applyErrOp_pipeError_stable s op h]; exact h),
        applyErrOp_pipeError_stable s op h]

theorem stopKillTimer_fields (s : RunnerState) :
    (stopKillTimer s).killed = s.killed
    ∧ (stopKillTimer s).error = s.error
    ∧ (stopKillTimer s).killCalls = s.killCalls
    ∧ (stopKillTimer s).killTimerInitialized = s.killTimerInitialized
    ∧ (stopKillTimer s).bufferedOutputSize = s.bufferedOutputSize := by
  unfold stopKillTimer
  split <;> simp

theorem kill_noop_of_killed (s : RunnerState) (r1 r2 : Int)
    (h : s.killed = true) : kill s r1 r2 = s := by
  unfold kill
  simp [h]

theorem kill_killed_of_not (s : RunnerState) (r1 r2 : Int)
    (hk : s.killed = false) : (kill s r1 r2).killed = true := by
  unfold kill stopKillTimer setError
  simp only [hk, Bool.false_eq_true, if_false]
  split_ifs <;> rfl

/-! ## Claim theorems -/

/-- C7: for every sequence of successful reads, in arrival order, the
copied-out capture is their concatenation, and the reported output length
is its length — the 65536-byte chunking of the chain is not observable. -/
theorem chain_concatenation_law (segs : List (List Nat)) :
    copyOutput (processReads segs) = segs.flatten
    ∧ outputLength (processReads segs) = segs.flatten.length := by
  have h : copyOutput (processReads segs) = segs.flatten := by
    unfold processReads
    rw [copyOutput_foldl]
    rfl
  exact ⟨h, by rw [outputLength_eq_length_copyOutput, h]⟩

/-- C5: the primary `error_` and the secondary `pipe_error_` slots are
write-once — under any further sequence of `SetError`/`SetPipeError`
calls a nonzero slot never changes — a zero slot takes the first written
code, and `GetError` reports the primary error when set, else the pipe
error. -/
theorem error_slots_write_once (s : RunnerState) (ops : List ErrOp)
    (e : Int) (he : s.error ≠ 0) (hp : s.pipeError ≠ 0) :
    (applyErrOps s ops).error = s.error
    ∧ (applyErrOps s ops).pipeError = s.pipeError
    ∧ (∀ t : RunnerState, t.error = 0 → (setError t e).error = e)
    ∧ (∀ t : RunnerState, t.pipeError = 0 → (setPipeError t e).pipeError = e)
    ∧ (∀ t : RunnerState,
        getError t = if t.error ≠ 0 then t.error else t.pipeError) := by
  refine ⟨applyErrOps_error_stable s ops he,
          applyErrOps_pipeError_stable s ops hp, ?_, ?_, fun t => rfl⟩
  · intro t ht
    unfold setError
    simp [ht]
  · intro t ht
    unfold setPipeError
    simp [ht]

theorem error_slots_write_once_witness :
    (applyErrOps { initialRunner with error := -9, pipeError := -7 }
        [.primary (-1), .pipe (-2), .primary (-3)]).error = -9
    ∧ (applyErrOps { initialRunner with error := -9, pipeError := -7 }
        [.primary (-1), .pipe (-2), .primary (-3)]).pipeError = -7 := by
  have h := error_slots_write_once
    { initialRunner with error := -9, pipeError := -7 }
    [.primary (-1), .pipe (-2), .primary (-3)] (-5)
    (by decide) (by decide)
  exact ⟨h.1, h.2.1⟩

/-- C3: on its first call `Kill` latches `killed_` (every later call is a
no-op), sends `kill_signal_` to the child once on success or an ESRCH
failure — ESRCH being ignored — while any other failure records the
primary error and retries once with the same `kill_signal_`; in every
case the kill timer is stopped. -/
theorem kill_contract (s : RunnerState) (r1 r2 : Int)
    (hk : s.killed = false) :
    (kill s r1 r2).killed = true
    ∧ (∀ q1 q2 : Int, kill (kill s r1 r2) q1 q2 = kill s r1 r2)
    ∧ (r1 = UV_ESRCH →
        (kill s r1 r2).error = s.error
        ∧ (kill s r1 r2).killCalls = s.killCalls ++ [s.killSignal])
    ∧ (0 ≤ r1 →
        (kill s r1 r2).error = s.error
        ∧ (kill s r1 r2).killCalls = s.killCalls ++ [s.killSignal])
    ∧ (r1 < 0 → r1 ≠ UV_ESRCH →
        (kill s r1 r2).error = (if s.error = 0 then r1 else s.error)
        ∧ (kill s r1 r2).killCalls
            = s.killCalls ++ [s.killSignal, s.killSignal])
    ∧ (s.killTimerInitialized = true → (kill s r1 r2).timerActive = false)
    ∧ (s.killTimerInitialized = false →
        (kill s r1 r2).timerActive = s.timerActive) := by
  have hkilled := kill_killed_of_not s r1 r2 hk
  refine ⟨hkilled, fun q1 q2 => kill_noop_of_killed _ q1 q2 hkilled,
          ?_, ?_, ?_, ?_, ?_⟩ <;>
    unfold kill stopKillTimer setError <;>
    simp only [hk, Bool.false_eq_true, if_false] <;>
    split_ifs <;> simp_all <;> omega

/-- Witness for C3: killing a fresh runner with a successful delivery. -/
theorem kill_contract_witness :
    (kill runnerWithTimer 0 0).killed = true
    ∧ (kill runnerWithTimer 0 0).error = 0
    ∧ (kill runnerWithTimer 0 0).killCalls = [SIGTERM]
    ∧ (kill runnerWithTimer 0 0).timerActive = false := by
  have h := kill_contract runnerWithTimer 0 0 (by decide)
  refine ⟨h.1, ?_, ?_, h.2.2.2.2.2.1 (by decide)⟩
  · exact (h.2.2.2.1 (by decide)).1.trans (by decide)
  · exact (h.2.2.2.1 (by decide)).2.trans (by decide)

/-- C4: every successful read adds `nread` to `buffered_output_size_`;
`Kill` is invoked exactly when `max_buffer_` is nonzero and the new total
exceeds it; a zero `max_buffer_` never kills by overflow; and an
overflow-triggered kill with successful signal delivery leaves the
primary error untouched. -/
theorem buffer_overflow_accounting (s : RunnerState) (len : Nat)
    (r1 r2 : Int) (hk : s.killed = false) (hd : 0 ≤ r1) :
    (incrementBufferSizeAndCheckOverflow s len r1 r2).bufferedOutputSize
        = s.bufferedOutputSize + len
    ∧ ((incrementBufferSizeAndCheckOverflow s len r1 r2).killCalls
          ≠ s.killCalls
        ↔ 0 < s.maxBuffer ∧ s.maxBuffer < s.bufferedOutputSize + len)
    ∧ (s.maxBuffer = 0 →
        incrementBufferSizeAndCheckOverflow s len r1 r2
          = { s with bufferedOutputSize := s.bufferedOutputSize + len })
    ∧ (incrementBufferSizeAndCheckOverflow s len r1 r2).error = s.error := by
  unfold incrementBufferSizeAndCheckOverflow
  by_cases hc : 0 < s.maxBuffer ∧ s.maxBuffer < s.bufferedOutputSize + len
  · rw [if_pos hc]
    have hne : ¬(r1 < 0 ∧ r1 ≠ UV_ESRCH) := fun hcon => absurd hd (by omega)
    unfold kill stopKillTimer setError
    simp only [hk, Bool.false_eq_true, if_false, hne]
    split_ifs <;> simp_all <;> omega
  · rw [if_neg hc]
    simp_all

/-- Witness for C4: a two-byte read tips a one-byte cap and kills;
the primary error stays clear. -/
theorem buffer_overflow_accounting_witness :
    (incrementBufferSizeAndCheckOverflow
        { initialRunner with maxBuffer := 1 } 2 0 0).bufferedOutputSize = 2
    ∧ (incrementBufferSizeAndCheckOverflow
        { initialRunner with maxBuffer := 1 } 2 0 0).killCalls ≠ []
    ∧ (incrementBufferSizeAndCheckOverflow
        { initialRunner with maxBuffer := 1 } 2 0 0).error = 0 := by
  have h := buffer_overflow_accounting { initialRunner with maxBuffer := 1 }
    2 0 0 (by decide) (by decide)
  exact ⟨h.1.trans (by decide), h.2.1.mpr (by decide), h.2.2.2.trans rfl⟩

/-- C6: in the built result, `status` is `exit_status_` exactly when it
is non-negative and null otherwise, `signal` is the rendered name of
`term_signal_` exactly when positive, the `output` field is null exactly
when the child never started (`exit_status_ < 0`), and otherwise it is
one entry per stdio slot — the captured bytes for present writable
pipes, null for everything else. -/
theorem result_object_assembly (s : RunnerState)
    (h : s.pipes.length = s.stdioCount) :
    (buildResultObject s).status
        = (if 0 ≤ s.exitStatus then some s.exitStatus else none)
    ∧ ((buildResultObject s).status = none ↔ s.exitStatus < 0)
    ∧ (buildResultObject s).signal
        = (if 0 < s.termSignal then some (signoString s.termSignal) else none)
    ∧ ((buildResultObject s).output = none ↔ s.exitStatus < 0)
    ∧ (0 ≤ s.exitStatus →
        (buildResultObject s).output = some (buildOutputArray s)
        ∧ (buildOutputArray s).length = s.stdioCount
        ∧ ∀ i : Nat, (buildOutputArray s).get? i
            = (s.pipes.get? i).map fun po =>
                match po with
                | some p =>
                  if p.writable then some (copyOutput p.chain) else none
                | none => none) := by
  refine ⟨rfl, ?_, rfl, ?_, ?_⟩
  · show (if 0 ≤ s.exitStatus then some s.exitStatus else none) = none
        ↔ s.exitStatus < 0
    split_ifs with hs <;> simp <;> omega
  · show (if 0 ≤ s.exitStatus then some (buildOutputArray s) else none) = none
        ↔ s.exitStatus < 0
    split_ifs with hs <;> simp <;> omega
  · intro hs
    refine ⟨by show (if 0 ≤ s.exitStatus then _ else none) = _; rw [if_pos hs],
            ?_, ?_⟩
    · show (s.pipes.map _).length = s.stdioCount
      rw [List.length_map, h]
    · intro i
      show ((s.pipes.map _).get? i) = _
      rw [List.get?_map]

/-- Witness for C6: a normal exit with one writable pipe that captured
one byte. -/
theorem result_object_assembly_witness :
    (buildResultObject runnerForResult).status = some 0
    ∧ (buildResultObject runnerForResult).signal = none
    ∧ (buildResultObject runnerForResult).output
        = some [none, some [104]] := by
  have h := result_object_assembly runnerForResult (by decide)
  refine ⟨h.1.trans (by decide), h.2.2.1.trans (by decide), ?_⟩
  exact (h.2.2.2.2 (by decide)).1.trans (by decide)

/-- C8: `Start` on an initialized pipe moves it to Started; on a
readable pipe it submits a write of the whole input exactly when the
input is non-empty and always submits the half-close shutdown (so the
child sees the input, then EOF); it starts the read loop exactly when
the pipe is writable. -/
theorem pipe_start_contract (p : StdioPipe) (wr sr rr : Int)
    (_hl : p.lifecycle = .initialized)
    (hw : 0 ≤ wr) (hs : 0 ≤ sr) (hr : 0 ≤ rr) :
    (pipeStart p wr sr rr).pipe.lifecycle = .started
    ∧ (pipeStart p wr sr rr).result = 0
    ∧ (p.readable = true →
        ((pipeStart p wr sr rr).wroteInput = true ↔ 0 < p.input.length)
        ∧ (pipeStart p wr sr rr).shutdownSent = true)
    ∧ (p.readable = false →
        (pipeStart p wr sr rr).wroteInput = false
        ∧ (pipeStart p wr sr rr).shutdownSent = false)
    ∧ (pipeStart p wr sr rr).readStarted = p.writable := by
  have hnw : ¬wr < 0 := not_lt.mpr hw
  have hns : ¬sr < 0 := not_lt.mpr hs
  have hnr : ¬rr < 0 := not_lt.mpr hr
  unfold pipeStart startFinishWritable
  cases hrd : p.readable <;> cases hwr : p.writable <;>
    by_cases hin : 0 < p.input.length <;>
    split_ifs <;> simp_all

/-- Witness for C8: starting a readable pipe carrying two input bytes,
with all three libuv submissions succeeding. -/
theorem pipe_start_contract_witness :
    (pipeStart pipeReadableEx 0 0 0).pipe.lifecycle = .started
    ∧ (pipeStart pipeReadableEx 0 0 0).wroteInput = true
    ∧ (pipeStart pipeReadableEx 0 0 0).shutdownSent = true
    ∧ (pipeStart pipeReadableEx 0 0 0).readStarted = false
    ∧ (pipeStart pipeReadableEx 0 0 0).result = 0 := by
  have h := pipe_start_contract pipeReadableEx 0 0 0 (by decide)
    (by decide) (by decide) (by decide)
  refine ⟨h.1, ?_, (h.2.2.1 (by decide)).2, h.2.2.2.2.trans (by decide),
          h.2.1⟩
  exact ((h.2.2.1 (by decide)).1).mpr (by decide)

/-- C10: on a readable-pipe stdio entry, an `input` value that is
neither a host byte buffer nor undefined makes the decoder fail the
`assert(input->IsUndefined())` — a fatal abort, not an `InvalidArgument`
return — while a `Buffer` input or an absent input is accepted. -/
theorem readable_pipe_input_assert (s : RunnerState) (fd : Nat)
    (v : JsValue)
    (hty : v.get "type" = .str (strBytes "pipe"))
    (hr : booleanValue (v.get "readable") = true) :
    ((isBuffer (v.get "input") = false ∧ isUndefined (v.get "input") = false) →
        parseStdioOption s fd v = .fatal)
    ∧ (∀ bytes : List Nat, v.get "input" = .buf bytes →
        fd < s.stdioCount → s.pipes.get? fd = some none →
        ∃ t, parseStdioOption s fd v = .ok t)
    ∧ (isUndefined (v.get "input") = true →
        fd < s.stdioCount → s.pipes.get? fd = some none →
        ∃ t, parseStdioOption s fd v = .ok t) := by
  have hig : strictEqStr (JsValue.str (strBytes "pipe")) "ignore" = false := by
    decide
  have hpi : strictEqStr (JsValue.str (strBytes "pipe")) "pipe" = true := by
    decide
  unfold parseStdioOption
  rw [hty]
  simp only [hig, Bool.false_eq_true, if_false, hpi, if_true, hr]
  refine ⟨?_, ?_, ?_⟩
  · rintro ⟨hnb, hnu⟩
    cases hinp : v.get "input" <;> simp_all [isBuffer, isUndefined]
  · intro bytes hinp hfd hslot
    simp only [hinp]
    unfold addStdioPipe
    rw [if_pos ⟨hfd, hslot⟩, if_pos (Or.inl rfl)]
    exact ⟨_, rfl⟩
  · intro hinp hfd hslot
    cases hi : v.get "input" <;> rw [hi] at hinp <;>
      simp only [isUndefined] at hinp <;>
      first
        | exact absurd hinp (by decide)
        | (simp only [hi]
           unfold addStdioPipe
           rw [if_pos ⟨hfd, hslot⟩, if_pos (Or.inl rfl)]
           exact ⟨_, rfl⟩)

/-- Witness for C10: a string-valued `input` aborts; a `Buffer` input is
accepted. -/
theorem readable_pipe_input_assert_witness :
    parseStdioOption stdioStateOne 0 stdioEntryBadInput = .fatal
    ∧ ∃ t, parseStdioOption stdioStateOne 0 stdioEntryBufInput = .ok t := by
  constructor
  · exact (readable_pipe_input_assert stdioStateOne 0 stdioEntryBadInput
      rfl (by decide)).1 ⟨by decide, by decide⟩
  · exact (readable_pipe_input_assert stdioStateOne 0 stdioEntryBufInput
      rfl (by decide)).2.1 [97, 98, 99] rfl (by decide) (by decide)

/-- C1 (counter-evidence): on an options record whose `args` decode
fails inside `CopyJsStringArray`, `ParseOptions` returns the positive
value `1` (the precedence bug `if (r = f(...) < 0) return r;`), the
caller's `if (r < 0)` does not fire, no primary error is recorded, and
control reaches `uv_spawn` — the child spawn is attempted. -/
theorem decode_failure_reaches_spawn :
    (parseOptions { initialRunner with lifecycle := .initialized }
        optsBadArgs).map (fun p => p.2) = some 1
    ∧ (tryInitializeAndRunLoop initialRunner optsBadArgs).map
        (fun t => (t.error, t.spawnAttempted)) = some (0, true) := by
  decide

/-- C2 (counter-evidence): decoding a record with `envPairs` and `cwd`
set stores the environment block in the descriptor's `args` field, never
writes the `env` field, and leaves the descriptor's `cwd` NULL (the
decoded bytes were written into `uv_process_options_.cwd` and then
overwritten with the never-assigned `cwd_buffer_`). -/
theorem env_block_lands_in_args_field :
    (parseOptions { initialRunner with lifecycle := .initialized }
        optsEnvCwd).map
      (fun p => (p.2, p.1.optsArgs, p.1.optsEnv, p.1.optsCwd,
                 p.1.envBuffer))
      = some (0, some [strBytes "A=B"], none, none,
              some [strBytes "A=B"]) := rfl

theorem parseFileStep_killSignal (s : RunnerState) (v : JsValue) :
    (parseFileStep s v).killSignal = s.killSignal := rfl

theorem parseCwdStep_killSignal (s : RunnerState) (v : JsValue) :
    (parseCwdStep s v).killSignal = s.killSignal := by
  unfold parseCwdStep
  split <;> rfl

theorem parseFlagsStep_killSignal (s : RunnerState) (v : JsValue) :
    (parseFlagsStep s v).killSignal = s.killSignal := by
  unfold parseFlagsStep
  split <;> split <;> rfl

theorem parseArgsStep_killSignal_ok (s : RunnerState) (v : JsValue)
    (t : RunnerState) (h : parseArgsStep s v = .ok t) :
    t.killSignal = s.killSignal := by
  unfold parseArgsStep at h
  try simp only [] at h
  repeat' split at h
  all_goals first | (cases h; rfl) | cases h

theorem parseArgsStep_killSignal_err (s : RunnerState) (v : JsValue)
    (p : RunnerState × Int) (h : parseArgsStep s v = .error p) :
    p.1.killSignal = s.killSignal := by
  unfold parseArgsStep at h
  try simp only [] at h
  repeat' split at h
  all_goals first | (cases h; rfl) | cases h

theorem parseEnvStep_killSignal_ok (s : RunnerState) (v : JsValue)
    (t : RunnerState) (h : parseEnvStep s v = .ok t) :
    t.killSignal = s.killSignal := by
  unfold parseEnvStep at h
  try simp only [] at h
  repeat' split at h
  all_goals first | (cases h; rfl) | cases h

theorem parseEnvStep_killSignal_err (s : RunnerState) (v : JsValue)
    (p : RunnerState × Int) (h : parseEnvStep s v = .error p) :
    p.1.killSignal = s.killSignal := by
  unfold parseEnvStep at h
  try simp only [] at h
  repeat' split at h
  all_goals first | (cases h; rfl) | cases h

theorem parseUidStep_killSignal_ok (s : RunnerState) (v : JsValue)
    (t : RunnerState) (h : parseUidStep s v = .ok t) :
    t.killSignal = s.killSignal := by
  unfold parseUidStep at h
  try simp only [] at h
  repeat' split at h
  all_goals first | (cases h; rfl) | cases h

theorem parseUidStep_killSignal_err (s : RunnerState) (v : JsValue)
    (p : RunnerState × Int) (h : parseUidStep s v = .error p) :
    p.1.killSignal = s.killSignal := by
  unfold parseUidStep at h
  try simp only [] at h
  repeat' split at h
  all_goals first | (cases h; rfl) | cases h

theorem parseGidStep_killSignal_ok (s : RunnerState) (v : JsValue)
    (t : RunnerState) (h : parseGidStep s v = .ok t) :
    t.killSignal = s.killSignal := by
  unfold parseGidStep at h
  try simp only [] at h
  repeat' split at h
  all_goals first | (cases h; rfl) | cases h

theorem parseGidStep_killSignal_err (s : RunnerState) (v : JsValue)
    (p : RunnerState × Int) (h : parseGidStep s v = .error p) :
    p.1.killSignal = s.killSignal := by
  unfold parseGidStep at h
  try simp only [] at h
  repeat' split at h
  all_goals first | (cases h; rfl) | cases h

theorem parseTimeoutStep_killSignal_ok (s : RunnerState) (v : JsValue)
    (t : RunnerState) (h : parseTimeoutStep s v = .ok t) :
    t.killSignal = s.killSignal := by
  unfold parseTimeoutStep at h
  try simp only [] at h
  repeat' split at h
  all_goals first | (cases h; rfl) | cases h

theorem parseTimeoutStep_killSignal_err (s : RunnerState) (v : JsValue)
    (p : RunnerState × Int) (h : parseTimeoutStep s v = .error p) :
    p.1.killSignal = s.killSignal := by
  unfold parseTimeoutStep at h
  try simp only [] at h
  repeat' split at h
  all_goals first | (cases h; rfl) | cases h

theorem parseMaxBufferStep_killSignal_ok (s : RunnerState) (v : JsValue)
    (t : RunnerState) (h : parseMaxBufferStep s v = .ok t) :
    t.killSignal = s.killSignal := by
  unfold parseMaxBufferStep at h
  try simp only [] at h
  repeat' split at h
  all_goals first | (cases h; rfl) | cases h

theorem parseMaxBufferStep_killSignal_err (s : RunnerState) (v : JsValue)
    (p : RunnerState × Int) (h : parseMaxBufferStep s v = .error p) :
    p.1.killSignal = s.killSignal := by
  unfold parseMaxBufferStep at h
  try simp only [] at h
  repeat' split at h
  all_goals first | (cases h; rfl) | cases h

theorem parseKillSignalStep_skip (s : RunnerState) (v : JsValue)
    (h : isSet (v.get "killSignal") = false) :
    parseKillSignalStep s v = .ok s := by
  unfold parseKillSignalStep
  simp [h]

theorem addStdioIgnore_killSignal (s : RunnerState) (fd : Nat)
    (t : RunnerState) (h : addStdioIgnore s fd = .ok t) :
    t.killSignal = s.killSignal := by
  unfold addStdioIgnore at h
  try simp only [] at h
  repeat' split at h
  all_goals first | (cases h; rfl) | cases h

theorem addStdioPipe_killSignal (s : RunnerState) (fd : Nat) (r w : Bool)
    (input : List Nat) (t : RunnerState)
    (h : addStdioPipe s fd r w input = .ok t) :
    t.killSignal = s.killSignal := by
  unfold addStdioPipe at h
  try simp only [] at h
  repeat' split at h
  all_goals first | (cases h; rfl) | cases h

theorem addStdioInheritFD_killSignal (s : RunnerState) (fd : Nat) (i : Int)
    (t : RunnerState) (h : addStdioInheritFD s fd i = .ok t) :
    t.killSignal = s.killSignal := by
  unfold addStdioInheritFD at h
  try simp only [] at h
  repeat' split at h
  all_goals first | (cases h; rfl) | cases h

theorem parseStdioOption_killSignal_ok (s : RunnerState) (fd : Nat)
    (v : JsValue) (t : RunnerState) (h : parseStdioOption s fd v = .ok t) :
    t.killSignal = s.killSignal := by
  unfold parseStdioOption at h
  try simp only [] at h
  repeat' split at h
  all_goals first
    | exact addStdioIgnore_killSignal _ _ _ h
    | exact addStdioPipe_killSignal _ _ _ _ _ _ h
    | exact addStdioInheritFD_killSignal _ _ _ _ h
    | cases h

theorem parseStdioOption_killSignal_err (s : RunnerState) (fd : Nat)
    (v : JsValue) (t : RunnerState) (c : Int)
    (h : parseStdioOption s fd v = .err t c) :
    t.killSignal = s.killSignal := by
  unfold parseStdioOption addStdioIgnore addStdioPipe addStdioInheritFD at h
  try simp only [] at h
  repeat' split at h
  all_goals cases h

theorem parseStdioList_killSignal (xs : List JsValue) :
    ∀ (s : RunnerState) (fd : Nat),
      (∀ t, parseStdioList s fd xs = .ok t → t.killSignal = s.killSignal)
      ∧ (∀ t c, parseStdioList s fd xs = .err t c →
          t.killSignal = s.killSignal) := by
  induction xs with
  | nil =>
    intro s fd
    constructor
    · intro t h
      cases h
      rfl
    · intro t c h
      cases h
  | cons e rest ih =>
    intro s fd
    constructor
    · intro t h
      unfold parseStdioList at h
      by_cases hio : isObject e = true
      · rw [if_pos hio] at h
        cases ho : parseStdioOption s fd e with
        | ok s1 =>
          simp only [ho] at h
          rw [(ih s1 (fd + 1)).1 t h,
              parseStdioOption_killSignal_ok s fd e s1 ho]
        | err s1 c1 =>
          simp only [ho] at h
          cases h
        | fatal =>
          simp only [ho] at h
          cases h
      · rw [if_neg hio] at h
        cases h
    · intro t c h
      unfold parseStdioList at h
      by_cases hio : isObject e = true
      · rw [if_pos hio] at h
        cases ho : parseStdioOption s fd e with
        | ok s1 =>
          simp only [ho] at h
          rw [(ih s1 (fd + 1)).2 t c h,
              parseStdioOption_killSignal_ok s fd e s1 ho]
        | err s1 c1 =>
          simp only [ho] at h
          cases h
          exact parseStdioOption_killSignal_err s fd e _ _ ho
        | fatal =>
          simp only [ho] at h
          cases h
      · rw [if_neg hio] at h
        cases h
        rfl

theorem parseStdioOptions_killSignal (s : RunnerState) (v : JsValue) :
    (∀ t, parseStdioOptions s v = .ok t → t.killSignal = s.killSignal)
    ∧ (∀ t c, parseStdioOptions s v = .err t c →
        t.killSignal = s.killSignal) := by
  unfold parseStdioOptions
  cases v
  case arr xs =>
    exact ⟨fun t h => (parseStdioList_killSignal xs
            { s with stdioCount := xs.length,
                     pipes := List.replicate xs.length none,
                     containerFlags := List.replicate xs.length 0 } 0).1 t h,
          fun t c h => (parseStdioList_killSignal xs
            { s with stdioCount := xs.length,
                     pipes := List.replicate xs.length none,
                     containerFlags := List.replicate xs.length 0 } 0).2 t c h⟩
  all_goals
    refine ⟨fun t h => (nomatch h), fun t c h => ?_⟩
  all_goals
    cases h
  all_goals
    rfl

/-- C9: the constructor initializes `kill_signal_` to SIGTERM, and when
the options record has no `killSignal` field, `ParseOptions` leaves
`kill_signal_` unchanged on every path it can return on — so an options
record without `killSignal` runs with SIGTERM. -/
theorem default_kill_signal_sigterm (s : RunnerState) (v : JsValue)
    (h : isSet (v.get "killSignal") = false) :
    initialRunner.killSignal = SIGTERM
    ∧ (parsedKillSignal s v = none
        ∨ parsedKillSignal s v = some s.killSignal) := by
  refine ⟨rfl, ?_⟩
  unfold parsedKillSignal parseOptions
  by_cases hobj : isObject v = true
  case neg =>
    right
    simp [hobj]
  case pos =>
    rw [if_pos hobj]
    have hks0 : (parseFileStep s v).killSignal = s.killSignal :=
      parseFileStep_killSignal s v
    cases h1 : parseArgsStep (parseFileStep s v) v with
    | error p =>
      right
      simp only [h1]
      rw [(parseArgsStep_killSignal_err _ _ _ h1).trans hks0]
    | ok s2 =>
      simp only [h1]
      have hks2 : s2.killSignal = s.killSignal :=
        (parseArgsStep_killSignal_ok _ _ _ h1).trans hks0
      have hks3 : (parseCwdStep s2 v).killSignal = s.killSignal :=
        (parseCwdStep_killSignal s2 v).trans hks2
      cases h2 : parseEnvStep (parseCwdStep s2 v) v with
      | error p =>
        right
        simp only [h2]
        rw [(parseEnvStep_killSignal_err _ _ _ h2).trans hks3]
      | ok s4 =>
        simp only [h2]
        have hks4 : s4.killSignal = s.killSignal :=
          (parseEnvStep_killSignal_ok _ _ _ h2).trans hks3
        cases h3 : parseUidStep s4 v with
        | error p =>
          right
          simp only [h3]
          rw [(parseUidStep_killSignal_err _ _ _ h3).trans hks4]
        | ok s5 =>
          simp only [h3]
          have hks5 : s5.killSignal = s.killSignal :=
            (parseUidStep_killSignal_ok _ _ _ h3).trans hks4
          cases h4 : parseGidStep s5 v with
          | error p =>
            right
            simp only [h4]
            rw [(parseGidStep_killSignal_err _ _ _ h4).trans hks5]
          | ok s6 =>
            simp only [h4]
            have hks6 : s6.killSignal = s.killSignal :=
              (parseGidStep_killSignal_ok _ _ _ h4).trans hks5
            have hks7 : (parseFlagsStep s6 v).killSignal = s.killSignal :=
              (parseFlagsStep_killSignal s6 v).trans hks6
            cases h5 : parseTimeoutStep (parseFlagsStep s6 v) v with
            | error p =>
              right
              simp only [h5]
              rw [(parseTimeoutStep_killSignal_err _ _ _ h5).trans hks7]
            | ok s8 =>
              simp only [h5]
              have hks8 : s8.killSignal = s.killSignal :=
                (parseTimeoutStep_killSignal_ok _ _ _ h5).trans hks7
              cases h6 : parseMaxBufferStep s8 v with
              | error p =>
                right
                simp only [h6]
                rw [(parseMaxBufferStep_killSignal_err _ _ _ h6).trans hks8]
              | ok s9 =>
                simp only [h6]
                have hks9 : s9.killSignal = s.killSignal :=
                  (parseMaxBufferStep_killSignal_ok _ _ _ h6).trans hks8
                rw [parseKillSignalStep_skip s9 v h]
                cases h7 : parseStdioOptions s9 (v.get "stdio") with
                | ok s10 =>
                  right
                  simp only [h7]
                  rw [((parseStdioOptions_killSignal s9 (v.get "stdio")).1
                        s10 h7).trans hks9]
                | err s10 c =>
                  right
                  simp only [h7]
                  rw [((parseStdioOptions_killSignal s9 (v.get "stdio")).2
                        s10 c h7).trans hks9]
                | fatal =>
                  left
                  simp only [h7]

/-- Witness for C9: a record with `file`, `args` and `stdio` only
decodes with `kill_signal_` still SIGTERM. -/
theorem default_kill_signal_sigterm_witness :
    parsedKillSignal initialRunner optsPlain = some SIGTERM := by
  have h := (default_kill_signal_sigterm initialRunner optsPlain
    (by decide)).2
  rcases h with h | h
  · exact absurd h (by decide)
  · exact h

end SpawnSync
